import Mathlib

/-!
Verification development for the project-initializer scripts
(`full_init_project.py`, `quick_init_project.py`, `quick_init_v2.py`,
`tui_init.py`).

The scripts are sequential orchestration of subprocess calls.  We embed the
decision logic shallowly: the ambient world (whether an origin remote exists,
the operator's prompt answers, which push attempts succeed, which template
files exist) is an explicit environment record, and each routine becomes a
pure function from that environment to a trace of its observable effects
(push invocations, sleep durations, remote registration, outcome).
-/

/-- Outcome of `setup_remote_and_push` (both the `quick_init_project.py`
function and the `ProjectInitializer` method have identical control flow).
Every constructor is a normal `return` in the Python source; no path raises. -/
inductive PushOutcome where
  /-- Push succeeded on the given 0-based attempt index. -/
  | pushedOk (attempt : Nat)
  /-- All `max_retries` attempts failed; failure reported, manual fallback printed. -/
  | exhausted
  /-- Origin existed, operator declined the push confirmation. -/
  | skippedExistingDecline
  /-- No origin existed, operator declined adding a remote; manual guidance printed. -/
  | skippedNoRemoteDecline
  /-- Operator confirmed adding a remote but supplied an empty (stripped) URL. -/
  | skippedEmptyUrl
  /-- `git remote add origin <url>` failed; reported and returned. -/
  | addRemoteFailed
deriving Repr, DecidableEq

/-- Environment for one execution of `setup_remote_and_push`: the state of the
world and the operator's answers, read at the points the source reads them. -/
structure RemoteEnv where
  /-- Whether `git remote get-url origin` exits 0 (an origin remote exists). -/
  originExists : Bool
  /-- Raw answer to `Push to this remote? (y/n)`. -/
  pushToExistingAnswer : String
  /-- Raw answer to `Add a remote repository? (y/n)`. -/
  addRemoteAnswer : String
  /-- Raw answer to the remote-URL prompt, before stripping. -/
  urlInput : String
  /-- Whether `git remote add origin <url>` succeeds. -/
  addRemoteSucceeds : Bool
  /-- Whether the push subprocess succeeds on a given 0-based attempt index. -/
  pushSucceeds : Nat → Bool

/-- Observable effects of one execution of `setup_remote_and_push`. -/
structure RemoteTrace where
  /-- Number of `git remote add` invocations. -/
  remoteAddCalls : Nat
  /-- Whether an origin remote was newly registered by this execution. -/
  remoteAdded : Bool
  /-- Number of `git push -u origin main` invocations. -/
  pushCalls : Nat
  /-- The `time.sleep` calls performed, in order; each entry is
  `retry_delays[attempt]` looked up fallibly (`none` would mean the Python
  list index was out of bounds and the source would raise `IndexError`). -/
  sleeps : List (Option Nat)
  /-- How the routine returned. -/
  outcome : PushOutcome
deriving Repr, DecidableEq

/-- ASCII character-wise lowercasing, modeling Python `str.lower()` on the
operator's prompt answers (the answers compared against are ASCII `y`). -/
def lowerStr (s : String) : String := ⟨s.data.map Char.toLower⟩

/-- Strip leading and trailing whitespace, modeling Python `str.strip()` on
the remote-URL prompt answer. -/
def stripStr (s : String) : String :=
  ⟨((s.data.dropWhile Char.isWhitespace).reverse.dropWhile Char.isWhitespace).reverse⟩

/-- `max_retries = 4` from the source. -/
def max_retries : Nat := 4

/-- `retry_delays = [2, 4, 8, 16]` from the source. -/
def retry_delays : List Nat := [2, 4, 8, 16]

/-- The push loop body: `for attempt in range(max_retries)` iterating over the
remaining attempt indices.  On a successful push it returns at once; on a
failed push with `attempt < max_retries - 1` it sleeps `retry_delays[attempt]`
and continues; on the final failed attempt it reports failure and returns.
Returns (sleeps performed, push invocations, outcome). -/
def pushLoopGo (p : Nat → Bool) : List Nat → List (Option Nat) × Nat × PushOutcome
  | [] => ([], 0, PushOutcome.exhausted)
  | attempt :: rest =>
    if p attempt then
      ([], 1, PushOutcome.pushedOk attempt)
    else if attempt < max_retries - 1 then
      ((retry_delays.get? attempt) :: (pushLoopGo p rest).1,
       (pushLoopGo p rest).2.1 + 1,
       (pushLoopGo p rest).2.2)
    else
      ([], 1, PushOutcome.exhausted)

/-- The retry loop of `setup_remote_and_push`: `for attempt in range(max_retries)`. -/
def pushLoop (p : Nat → Bool) : List (Option Nat) × Nat × PushOutcome :=
  pushLoopGo p (List.range max_retries)

/-- Shallow embedding of `setup_remote_and_push` (identical control flow in
`quick_init_project.py` lines 48-108 and `full_init_project.py` lines 232-293):
check for an existing origin remote; if present, confirm before pushing; if
absent, offer to add one, prompt for a URL (stripped; empty cancels), register
it (one attempt; failure reports and returns); then push with the retry loop. -/
def setup_remote_and_push (env : RemoteEnv) : RemoteTrace :=
  if env.originExists then
    if lowerStr env.pushToExistingAnswer ≠ "y" then
      { remoteAddCalls := 0, remoteAdded := false, pushCalls := 0,
        sleeps := [], outcome := PushOutcome.skippedExistingDecline }
    else
      { remoteAddCalls := 0, remoteAdded := false,
        pushCalls := (pushLoop env.pushSucceeds).2.1,
        sleeps := (pushLoop env.pushSucceeds).1,
        outcome := (pushLoop env.pushSucceeds).2.2 }
  else
    if lowerStr env.addRemoteAnswer ≠ "y" then
      { remoteAddCalls := 0, remoteAdded := false, pushCalls := 0,
        sleeps := [], outcome := PushOutcome.skippedNoRemoteDecline }
    else if stripStr env.urlInput = "" then
      { remoteAddCalls := 0, remoteAdded := false, pushCalls := 0,
        sleeps := [], outcome := PushOutcome.skippedEmptyUrl }
    else if env.addRemoteSucceeds then
      { remoteAddCalls := 1, remoteAdded := true,
        pushCalls := (pushLoop env.pushSucceeds).2.1,
        sleeps := (pushLoop env.pushSucceeds).1,
        outcome := (pushLoop env.pushSucceeds).2.2 }
    else
      { remoteAddCalls := 1, remoteAdded := false, pushCalls := 0,
        sleeps := [], outcome := PushOutcome.addRemoteFailed }

/-- Which outcomes print the manual fallback command `git push -u origin main`
(the decline-to-add-remote guidance and the retry-exhaustion report both do). -/
def manualFallbackReported : PushOutcome → Bool
  | PushOutcome.exhausted => true
  | PushOutcome.skippedNoRemoteDecline => true
  | _ => false

/-- Result of the `run` helper of `quick_init_project.py` / `quick_init_v2.py`:
either the process was terminated via `sys.exit code`, or the helper returned
the completed subprocess (with its return code). -/
inductive CmdOutcome where
  /-- `sys.exit code` was called. -/
  | exited (code : Nat)
  /-- The helper returned the completed process with this return code. -/
  | completed (returncode : Nat)
deriving Repr, DecidableEq

namespace quick_init

/-- The `run` helper of `quick_init_project.py` lines 13-19 (identical in
`quick_init_v2.py` lines 12-18): run the command; if `check` and the return
code is nonzero, print the error and `sys.exit(1)`; otherwise return the
result. -/
def run (check : Bool) (returncode : Nat) : CmdOutcome :=
  if check ∧ returncode ≠ 0 then CmdOutcome.exited 1 else CmdOutcome.completed returncode

end quick_init

/-- The non-empty-folder gate (`quick_init_project.py` lines 118-123,
`full_init_project.py` lines 300-305, identical semantics): when the target
directory holds non-hidden files and the operator's lowercased answer is not
`y`, the process calls `sys.exit(0)`; otherwise execution continues.
`some code` models `sys.exit(code)`; `none` models falling through. -/
def empty_check_exit (filesNonempty : Bool) (answer : String) : Option Nat :=
  if filesNonempty then
    if lowerStr answer ≠ "y" then some 0 else none
  else
    none

/-- `load_template` of `quick_init_project.py` lines 40-45: return the file
content when the template exists, else `None` (the callers then write a
built-in minimal fallback and continue). -/
def load_template (texists : Bool) (content : String) : Option String :=
  if texists then some content else none

/-- Scanner underlying Python `str.replace(old, new)` on character lists:
walk left to right; at a position where the pattern is a prefix, emit the
replacement and skip past the match; otherwise keep the character and move
on.  The fuel argument (instantiated with the length of the string, an upper
bound on the number of scanning steps) makes the recursion structural. -/
def replaceAux (p v : List Char) : List Char → Nat → List Char
  | s, 0 => s
  | [], _ + 1 => []
  | c :: rest, fuel + 1 =>
    if p.isPrefixOf (c :: rest) then
      v ++ replaceAux p v (rest.drop (p.length - 1)) fuel
    else
      c :: replaceAux p v rest fuel

/-- Python `str.replace(old, new)` for a non-empty pattern (the source only
replaces patterns of the form `{KEY}`, never empty): replace every
occurrence, scanning left to right without overlap. -/
def pyReplace (s old new : String) : String :=
  if old.data = [] then s else ⟨replaceAux old.data new.data s.data s.data.length⟩

/-- Whether the pattern occurs as a contiguous substring (Python `in`). -/
def containsPat (p : List Char) : List Char → Bool
  | [] => p.isEmpty
  | c :: rest => p.isPrefixOf (c :: rest) || containsPat p rest

/-- Python `pat in s` on strings. -/
def pyContains (s pat : String) : Bool := containsPat pat.data s.data

/-- The replace-vars pass of `copy_template` (`full_init_project.py` lines
111-114, `tui_init.py` lines 286-289): when a replacement map is supplied
(Python truthiness: `None` skips the pass, and an empty map replaces
nothing), fold over its entries with `content.replace("{KEY}", value)`. -/
def applyReplaceVars (replace_vars : Option (List (String × String))) (content : String) : String :=
  match replace_vars with
  | none => content
  | some vars => vars.foldl (fun c kv => pyReplace c ("\x7b" ++ kv.1 ++ "\x7d") kv.2) content

/-- `copy_template` (`full_init_project.py` lines 101-118, `tui_init.py`
lines 276-292): if the template file is missing, report and return with
nothing written (`none`); otherwise read it, apply the replace-vars pass, and
write the result to the destination (`some` written content). -/
def copy_template (texists : Bool) (content : String) (replace_vars : Option (List (String × String))) : Option String :=
  if texists then some (applyReplaceVars replace_vars content) else none

/-- The template-name choice of `create_gitignore` (`full_init_project.py`
lines 120-130, `tui_init.py` lines 305-314): start from
`gitignore.{language}`; if that file does not exist, reassign the name once
to `gitignore.generic` — there is no further fallback and no loop. -/
def create_gitignore_template_name (language : String) (texists : String → Bool) : String :=
  if texists ("gitignore." ++ language) then "gitignore." ++ language
  else "gitignore.generic"

/-- `create_gitignore`: choose the template name (with the single fallback)
and hand it to `copy_template` with no replace-vars; `texists` says which
template files exist and `contentOf` gives their content.  Returns the
written `.gitignore` content, or `none` when the chosen template is missing. -/
def create_gitignore (language : String) (texists : String → Bool) (contentOf : String → String) : Option String :=
  copy_template (texists (create_gitignore_template_name language texists))
    (contentOf (create_gitignore_template_name language texists)) none

/-- Initial-commit command of `full_init_project.py` line 338. -/
def full_init_commit_cmd : List String :=
  ["git", "commit", "--no-verify", "-m", "Initial commit: Project setup with CodeRabbit CLI"]

/-- Initial-commit command of `quick_init_project.py` line 212. -/
def quick_init_commit_cmd : List String :=
  ["git", "commit", "--no-verify", "-m", "Initial commit: Project setup with CodeRabbit CLI"]

/-- Initial-commit command of `quick_init_v2.py` line 148. -/
def quick_v2_commit_cmd : List String :=
  ["git", "commit", "-m", "Initial commit"]

/-- Claim C8: the scripted variant and the quick variant create the initial
commit with the pre-commit hook bypassed (`--no-verify` is passed), while the
v2 quick variant commits without bypassing the hook. -/
theorem initial_commit_hook_bypass_differs :
    "--no-verify" ∈ full_init_commit_cmd ∧
    "--no-verify" ∈ quick_init_commit_cmd ∧
    "--no-verify" ∉ quick_v2_commit_cmd := by
  refine ⟨?_, ?_, ?_⟩ <;> decide

/-- Every list contains the empty pattern. -/
theorem containsPat_nil (l : List Char) : containsPat [] l = true := by
  cases l <;> simp [containsPat, List.isPrefixOf]

/-- A list is a prefix of itself followed by anything. -/
theorem isPrefixOf_append (v t : List Char) : v.isPrefixOf (v ++ t) = true := by
  induction v with
  | nil => simp [List.isPrefixOf]
  | cons a v ih => simp [List.isPrefixOf, ih]

/-- A list occurs in itself followed by anything. -/
theorem containsPat_append_left (v t : List Char) : containsPat v (v ++ t) = true := by
  cases v with
  | nil => exact containsPat_nil _
  | cons a v => simp [containsPat, isPrefixOf_append]

/-- The replacement scanner leaves a string without the pattern unchanged. -/
theorem replaceAux_not_contains (p v : List Char) (fuel : Nat) :
    ∀ s : List Char, containsPat p s = false → replaceAux p v s fuel = s := by
  induction fuel with
  | zero => intro s h; cases s <;> rfl
  | succ n ih =>
    intro s h
    cases s with
    | nil => rfl
    | cons c rest =>
      simp only [containsPat, Bool.or_eq_false_iff] at h
      simp [replaceAux, h.1, ih rest h.2]

/-- If the (non-empty) pattern occurs in the input and the fuel covers the
input length, the replacement value occurs in the scanner's output. -/
theorem contains_replaceAux (p v : List Char) (hp : p ≠ []) :
    ∀ fuel s, s.length ≤ fuel → containsPat p s = true →
      containsPat v (replaceAux p v s fuel) = true := by
  intro fuel
  induction fuel with
  | zero =>
    intro s hs h
    have hnil : s = [] := List.length_eq_zero.mp (Nat.le_zero.mp hs)
    subst hnil
    simp [containsPat, List.isEmpty_iff] at h
    exact absurd h hp
  | succ n ih =>
    intro s hs h
    cases s with
    | nil =>
      simp [containsPat, List.isEmpty_iff] at h
      exact absurd h hp
    | cons c rest =>
      by_cases hpre : p.isPrefixOf (c :: rest) = true
      · simp only [replaceAux, hpre, if_true]
        exact containsPat_append_left v _
      · have hpre2 : p.isPrefixOf (c :: rest) = false := Bool.eq_false_iff.mpr hpre
        have h2 : containsPat p rest = true := by
          simpa [containsPat, hpre2] using h
        have hlen : rest.length ≤ n := by simpa using hs
        have hrec := ih rest hlen h2
        simp [replaceAux, hpre2, containsPat, hrec]

/-- In every loop execution the sleeps are an in-order in-bounds prefix of the
first three schedule entries. -/
theorem pushLoop_sleeps_spec (p : Nat → Bool) :
    (pushLoop p).1.length ≤ 3 ∧
    (pushLoop p).1 = (List.map some retry_delays).take (pushLoop p).1.length ∧
    some 16 ∉ (pushLoop p).1 ∧
    Option.none ∉ (pushLoop p).1 := by
  have hr : List.range max_retries = [0, 1, 2, 3] := rfl
  cases hp0 : p 0 <;> cases hp1 : p 1 <;> cases hp2 : p 2 <;> cases hp3 : p 3 <;>
    simp [pushLoop, hr, pushLoopGo, hp0, hp1, hp2, hp3, retry_delays, max_retries]

/-- Claim C1: for every attempt count k in 1..4, an execution of the
remote-push retry routine in which the push succeeds on attempt k performs
exactly k-1 sleeps, whose durations are the first k-1 entries of the schedule
[2,4,8,16] in order, performs no sleep after the successful attempt (the
sleep list is exactly those k-1 entries), makes exactly k push invocations,
and returns a success signal on that attempt. -/
theorem push_success_schedule (env : RemoteEnv) (k : Nat)
    (horigin : env.originExists = true)
    (hconfirm : lowerStr env.pushToExistingAnswer = "y")
    (hk1 : 1 ≤ k) (hk4 : k ≤ 4)
    (hfail : ∀ i, i < k - 1 → env.pushSucceeds i = false)
    (hsucc : env.pushSucceeds (k - 1) = true) :
    (setup_remote_and_push env).sleeps = (retry_delays.take (k - 1)).map some ∧
    (setup_remote_and_push env).pushCalls = k ∧
    (setup_remote_and_push env).outcome = PushOutcome.pushedOk (k - 1) := by
  have hr : List.range max_retries = [0, 1, 2, 3] := rfl
  interval_cases k
  · simp_all [setup_remote_and_push, pushLoop, hr, pushLoopGo, retry_delays, max_retries]
  · have f0 := hfail 0 (by norm_num)
    simp_all [setup_remote_and_push, pushLoop, hr, pushLoopGo, retry_delays, max_retries]
  · have f0 := hfail 0 (by norm_num)
    have f1 := hfail 1 (by norm_num)
    simp_all [setup_remote_and_push, pushLoop, hr, pushLoopGo, retry_delays, max_retries]
  · have f0 := hfail 0 (by norm_num)
    have f1 := hfail 1 (by norm_num)
    have f2 := hfail 2 (by norm_num)
    simp_all [setup_remote_and_push, pushLoop, hr, pushLoopGo, retry_delays, max_retries]

/-- Witness for C1 at k = 3: push fails on attempts 1 and 2 and succeeds on
attempt 3; two sleeps of 2s and 4s are performed and the routine succeeds. -/
theorem push_success_schedule_witness :
    (setup_remote_and_push
        { originExists := true, pushToExistingAnswer := "Y", addRemoteAnswer := "n",
          urlInput := "", addRemoteSucceeds := true,
          pushSucceeds := fun i => decide (i = 2) }).sleeps
      = (retry_delays.take (3 - 1)).map some ∧
    (setup_remote_and_push
        { originExists := true, pushToExistingAnswer := "Y", addRemoteAnswer := "n",
          urlInput := "", addRemoteSucceeds := true,
          pushSucceeds := fun i => decide (i = 2) }).pushCalls = 3 ∧
    (setup_remote_and_push
        { originExists := true, pushToExistingAnswer := "Y", addRemoteAnswer := "n",
          urlInput := "", addRemoteSucceeds := true,
          pushSucceeds := fun i => decide (i = 2) }).outcome
      = PushOutcome.pushedOk (3 - 1) := by
  exact push_success_schedule _ 3 rfl (by decide) (by norm_num) (by norm_num)
    (fun i hi => by interval_cases i <;> rfl) (by decide)

/-- Claim C2: when all 4 push attempts fail the routine returns normally (the
embedding is a total function; in the source every failure is caught and every
path is a plain return) with the exhaustion outcome, reports failure with the
manual fallback command, makes exactly 4 push invocations, and the applied
waits are exactly the first three schedule entries [2,4,8] in order — there is
no wait after the final failed attempt (3 = max_retries - 1 sleeps in all). -/
theorem push_exhaustion_schedule (env : RemoteEnv)
    (horigin : env.originExists = true)
    (hconfirm : lowerStr env.pushToExistingAnswer = "y")
    (hfail : ∀ i, i < max_retries → env.pushSucceeds i = false) :
    (setup_remote_and_push env).sleeps = (retry_delays.take 3).map some ∧
    (setup_remote_and_push env).sleeps.length = max_retries - 1 ∧
    (setup_remote_and_push env).pushCalls = max_retries ∧
    (setup_remote_and_push env).outcome = PushOutcome.exhausted ∧
    manualFallbackReported (setup_remote_and_push env).outcome = true := by
  have hr : List.range max_retries = [0, 1, 2, 3] := rfl
  have f0 := hfail 0 (by norm_num [max_retries])
  have f1 := hfail 1 (by norm_num [max_retries])
  have f2 := hfail 2 (by norm_num [max_retries])
  have f3 := hfail 3 (by norm_num [max_retries])
  simp_all [setup_remote_and_push, pushLoop, hr, pushLoopGo, retry_delays, max_retries,
    manualFallbackReported]

/-- Witness for C2: with every push attempt failing, the routine sleeps
2s, 4s, 8s, pushes 4 times, and reports exhaustion with the fallback. -/
theorem push_exhaustion_schedule_witness :
    (setup_remote_and_push
        { originExists := true, pushToExistingAnswer := "y", addRemoteAnswer := "n",
          urlInput := "", addRemoteSucceeds := true,
          pushSucceeds := fun _ => false }).sleeps = (retry_delays.take 3).map some ∧
    (setup_remote_and_push
        { originExists := true, pushToExistingAnswer := "y", addRemoteAnswer := "n",
          urlInput := "", addRemoteSucceeds := true,
          pushSucceeds := fun _ => false }).sleeps.length = max_retries - 1 ∧
    (setup_remote_and_push
        { originExists := true, pushToExistingAnswer := "y", addRemoteAnswer := "n",
          urlInput := "", addRemoteSucceeds := true,
          pushSucceeds := fun _ => false }).pushCalls = max_retries ∧
    (setup_remote_and_push
        { originExists := true, pushToExistingAnswer := "y", addRemoteAnswer := "n",
          urlInput := "", addRemoteSucceeds := true,
          pushSucceeds := fun _ => false }).outcome = PushOutcome.exhausted ∧
    manualFallbackReported
      (setup_remote_and_push
        { originExists := true, pushToExistingAnswer := "y", addRemoteAnswer := "n",
          urlInput := "", addRemoteSucceeds := true,
          pushSucceeds := fun _ => false }).outcome = true := by
  exact push_exhaustion_schedule _ rfl (by decide) (fun i _ => rfl)

/-- Counterexample to claim C3: the claim says the process exits early with a
NON-ZERO code in (and only in) the decline-on-non-empty-directory case, with
every other failure degrading to a warning.  On the code, the decline branch
calls sys.exit(0) — exit code 0, not non-zero — and, in the quick variants,
any checked subprocess failure (for example git init returning 128) calls
sys.exit(1), terminating the run instead of degrading to a warning. -/
theorem exit_policy_counterexample :
    empty_check_exit true "n" = some 0 ∧
    quick_init.run true 128 = CmdOutcome.exited 1 := by
  exact ⟨by decide, by decide⟩

/-- Claim C3 as amended: the initializer exits early only in two cases — with
exit code 0 when the operator declines to proceed on a non-empty target
directory, and (in the quick variants) with exit code 1 when a checked git
subprocess fails; unchecked subprocess failures and missing templates degrade
to warnings or fallbacks and execution continues, and push exhaustion returns
normally. -/
theorem exit_policy_amended :
    (∀ b : Bool, ∀ ans : String,
      empty_check_exit b ans = none ∨ empty_check_exit b ans = some 0) ∧
    (∀ rc : Nat, rc ≠ 0 → quick_init.run true rc = CmdOutcome.exited 1) ∧
    (∀ rc : Nat, quick_init.run false rc = CmdOutcome.completed rc) ∧
    (∀ c : String, load_template false c = none) ∧
    (∀ env : RemoteEnv, (∀ i, env.pushSucceeds i = false) →
      env.originExists = true → lowerStr env.pushToExistingAnswer = "y" →
      (setup_remote_and_push env).outcome = PushOutcome.exhausted) := by
  refine ⟨?_, ?_, ?_, ?_, ?_⟩
  · intro b ans
    by_cases hb : b = true
    · by_cases h : lowerStr ans = "y" <;> simp [empty_check_exit, hb, h]
    · simp [empty_check_exit, Bool.eq_false_iff.mpr hb]
  · intro rc h
    simp [quick_init.run, h]
  · intro rc
    simp [quick_init.run]
  · intro c
    simp [load_template]
  · intro env hfail horigin hconfirm
    have hr : List.range max_retries = [0, 1, 2, 3] := rfl
    have f0 := hfail 0
    have f1 := hfail 1
    have f2 := hfail 2
    have f3 := hfail 3
    simp_all [setup_remote_and_push, pushLoop, hr, pushLoopGo, retry_delays, max_retries]

/-- Witness for the amended C3: concrete instances — the decline on a
non-empty directory exits with code 0, a checked subprocess failure exits
with code 1, an unchecked failure is returned to the caller, and a missing
template yields the absent-content signal. -/
theorem exit_policy_amended_witness :
    (empty_check_exit true "n" = none ∨ empty_check_exit true "n" = some 0) ∧
    quick_init.run true 7 = CmdOutcome.exited 1 ∧
    quick_init.run false 7 = CmdOutcome.completed 7 ∧
    load_template false "x" = none := by
  exact ⟨exit_policy_amended.1 true "n", exit_policy_amended.2.1 7 (by decide),
    exit_policy_amended.2.2.1 7, exit_policy_amended.2.2.2.1 "x"⟩

/-- Counterexample to claim C4: the claim says that for EVERY template text
containing the token and EVERY replacement value the output has no remaining
token and re-substitution is idempotent.  With the template being exactly the
token and the value `x{PROJECT_NAME}y`, a single left-to-right replacement
pass re-creates the token from the inserted value: the output still contains
`{PROJECT_NAME}` and a second application changes the output. -/
theorem template_subst_counterexample :
    pyContains
      (applyReplaceVars (some [("PROJECT_NAME", "x{PROJECT_NAME}y")]) "{PROJECT_NAME}")
      "{PROJECT_NAME}" = true ∧
    applyReplaceVars (some [("PROJECT_NAME", "x{PROJECT_NAME}y")])
        (applyReplaceVars (some [("PROJECT_NAME", "x{PROJECT_NAME}y")]) "{PROJECT_NAME}")
      ≠ applyReplaceVars (some [("PROJECT_NAME", "x{PROJECT_NAME}y")]) "{PROJECT_NAME}" := by
  exact ⟨by decide, by decide⟩

/-- Claim C4 as amended: for every template text containing the token
`{PROJECT_NAME}` and every replacement value, the produced output contains the
value; the single replacement pass substitutes left to right, so a remaining
token can only be one re-created by the inserted value or its junction with
surrounding text — on any text without the token the substitution is the
identity (hence a second application leaves any token-free output unchanged);
and copying with no replacement map yields the template text unchanged
byte-for-byte. -/
theorem template_subst_amended (tmpl value : String)
    (h : pyContains tmpl "{PROJECT_NAME}" = true) :
    pyContains (applyReplaceVars (some [("PROJECT_NAME", value)]) tmpl) value = true ∧
    (∀ t : String, pyContains t "{PROJECT_NAME}" = false →
      pyReplace t "{PROJECT_NAME}" value = t) ∧
    applyReplaceVars none tmpl = tmpl := by
  refine ⟨?_, ?_, rfl⟩
  · have hone : applyReplaceVars (some [("PROJECT_NAME", value)]) tmpl
        = pyReplace tmpl "{PROJECT_NAME}" value := rfl
    rw [hone]
    unfold pyReplace
    rw [if_neg (by decide)]
    exact contains_replaceAux _ _ (by decide) _ _ (Nat.le_refl _) h
  · intro t ht
    unfold pyReplace
    rw [if_neg (by decide)]
    have := replaceAux_not_contains ("{PROJECT_NAME}".data) value.data t.data.length t.data ht
    cases t
    simp_all

/-- Witness for the amended C4 at a concrete template and value. -/
theorem template_subst_amended_witness :
    pyContains (applyReplaceVars (some [("PROJECT_NAME", "demo")]) "# {PROJECT_NAME}") "demo" = true ∧
    pyReplace "no token here" "{PROJECT_NAME}" "demo" = "no token here" ∧
    applyReplaceVars none "# {PROJECT_NAME}" = "# {PROJECT_NAME}" := by
  have h := template_subst_amended "# {PROJECT_NAME}" "demo" (by decide)
  exact ⟨h.1, h.2.1 "no token here" (by decide), h.2.2⟩

/-- Claim C5: if the operator declines at either decision point — declining
the push confirmation when an origin remote exists, or declining to add a
remote when none exists — then zero push invocations occur, the routine
returns (with a skip outcome), no remote registration is attempted, and no
origin remote is added. -/
theorem decline_leaves_remote_unchanged (env : RemoteEnv)
    (h : (env.originExists = true ∧ lowerStr env.pushToExistingAnswer ≠ "y") ∨
         (env.originExists = false ∧ lowerStr env.addRemoteAnswer ≠ "y")) :
    (setup_remote_and_push env).pushCalls = 0 ∧
    (setup_remote_and_push env).remoteAddCalls = 0 ∧
    (setup_remote_and_push env).remoteAdded = false ∧
    ((setup_remote_and_push env).outcome = PushOutcome.skippedExistingDecline ∨
     (setup_remote_and_push env).outcome = PushOutcome.skippedNoRemoteDecline) := by
  rcases h with ⟨h1, h2⟩ | ⟨h1, h2⟩ <;> simp [setup_remote_and_push, h1, h2]

/-- Witness for C5: declining to add a remote when none exists. -/
theorem decline_leaves_remote_unchanged_witness :
    (setup_remote_and_push
        { originExists := false, pushToExistingAnswer := "", addRemoteAnswer := "n",
          urlInput := "", addRemoteSucceeds := true,
          pushSucceeds := fun _ => true }).pushCalls = 0 ∧
    (setup_remote_and_push
        { originExists := false, pushToExistingAnswer := "", addRemoteAnswer := "n",
          urlInput := "", addRemoteSucceeds := true,
          pushSucceeds := fun _ => true }).remoteAddCalls = 0 ∧
    (setup_remote_and_push
        { originExists := false, pushToExistingAnswer := "", addRemoteAnswer := "n",
          urlInput := "", addRemoteSucceeds := true,
          pushSucceeds := fun _ => true }).remoteAdded = false ∧
    ((setup_remote_and_push
        { originExists := false, pushToExistingAnswer := "", addRemoteAnswer := "n",
          urlInput := "", addRemoteSucceeds := true,
          pushSucceeds := fun _ => true }).outcome = PushOutcome.skippedExistingDecline ∨
     (setup_remote_and_push
        { originExists := false, pushToExistingAnswer := "", addRemoteAnswer := "n",
          urlInput := "", addRemoteSucceeds := true,
          pushSucceeds := fun _ => true }).outcome = PushOutcome.skippedNoRemoteDecline) := by
  exact decline_leaves_remote_unchanged _ (Or.inr ⟨rfl, by decide⟩)

/-- Claim C6: when no language-specific ignore-file template exists, the
gitignore creation falls back to the generic template name exactly once: the
chosen name is `gitignore.generic`, and the subsequent copy either writes the
generic template or — when the generic template is also absent — writes
nothing and returns (no further fallback, no loop). -/
theorem gitignore_fallback_once (language : String) (texists : String → Bool)
    (contentOf : String → String)
    (h : texists ("gitignore." ++ language) = false) :
    create_gitignore_template_name language texists = "gitignore.generic" ∧
    create_gitignore language texists contentOf
      = (if texists "gitignore.generic" then some (contentOf "gitignore.generic") else none) := by
  have hname : create_gitignore_template_name language texists = "gitignore.generic" := by
    simp [create_gitignore_template_name, h]
  refine ⟨hname, ?_⟩
  by_cases hg : texists "gitignore.generic" = true <;>
    simp [create_gitignore, copy_template, hname, hg, applyReplaceVars]

/-- Witness for C6: an unknown language with no templates at all still
resolves to the generic name and writes nothing. -/
theorem gitignore_fallback_once_witness :
    create_gitignore_template_name "kotlin" (fun _ => false) = "gitignore.generic" ∧
    create_gitignore "kotlin" (fun _ => false) (fun _ => "")
      = (if (fun _ => false) "gitignore.generic" then some ((fun _ => "") "gitignore.generic") else none) := by
  exact gitignore_fallback_once "kotlin" (fun _ => false) (fun _ => "") rfl

/-- Claim C7: with no existing remote and the operator confirming, an empty or
whitespace-only URL is treated as cancellation — no registration attempt, no
push; a non-empty URL whose registration fails is reported and the routine
stops after that single registration attempt, with no push. -/
theorem empty_url_or_addfail_stops (env : RemoteEnv)
    (horigin : env.originExists = false)
    (hadd : lowerStr env.addRemoteAnswer = "y") :
    (stripStr env.urlInput = "" →
      setup_remote_and_push env =
        { remoteAddCalls := 0, remoteAdded := false, pushCalls := 0,
          sleeps := [], outcome := PushOutcome.skippedEmptyUrl }) ∧
    (stripStr env.urlInput ≠ "" → env.addRemoteSucceeds = false →
      setup_remote_and_push env =
        { remoteAddCalls := 1, remoteAdded := false, pushCalls := 0,
          sleeps := [], outcome := PushOutcome.addRemoteFailed }) := by
  constructor
  · intro hurl
    simp [setup_remote_and_push, horigin, hadd, hurl]
  · intro hurl hfailadd
    simp [setup_remote_and_push, horigin, hadd, hurl, hfailadd]

/-- Witness for C7: a whitespace-only URL cancels, and a failing registration
of a non-empty URL stops the routine after one attempt. -/
theorem empty_url_or_addfail_stops_witness :
    setup_remote_and_push
        { originExists := false, pushToExistingAnswer := "", addRemoteAnswer := "y",
          urlInput := "   ", addRemoteSucceeds := true, pushSucceeds := fun _ => true }
      = { remoteAddCalls := 0, remoteAdded := false, pushCalls := 0,
          sleeps := [], outcome := PushOutcome.skippedEmptyUrl } ∧
    setup_remote_and_push
        { originExists := false, pushToExistingAnswer := "", addRemoteAnswer := "y",
          urlInput := "git@github.com:user/repo.git", addRemoteSucceeds := false,
          pushSucceeds := fun _ => true }
      = { remoteAddCalls := 1, remoteAdded := false, pushCalls := 0,
          sleeps := [], outcome := PushOutcome.addRemoteFailed } := by
  constructor
  · exact (empty_url_or_addfail_stops _ rfl (by decide)).1 (by decide)
  · exact (empty_url_or_addfail_stops _ rfl (by decide)).2 (by decide) rfl

/-- Claim C9: in every execution of the remote-push retry routine the sleep
list has at most three entries, its entries are in order the leading entries
of the delay schedule (each found by an in-bounds list lookup, never the
out-of-bounds `none`), and a 16-second sleep never occurs. -/
theorem sleep_schedule_bounded (env : RemoteEnv) :
    (setup_remote_and_push env).sleeps.length ≤ 3 ∧
    (setup_remote_and_push env).sleeps
      = (List.map some retry_delays).take (setup_remote_and_push env).sleeps.length ∧
    some 16 ∉ (setup_remote_and_push env).sleeps ∧
    Option.none ∉ (setup_remote_and_push env).sleeps := by
  have h := pushLoop_sleeps_spec env.pushSucceeds
  unfold setup_remote_and_push
  split
  · split
    · simp
    · exact h
  · split
    · simp
    · split
      · simp
      · split
        · exact h
        · simp

/-- Claim C10: at each yes/no confirmation prompt only an answer that equals
`y` after lowercasing confirms; any other answer — including `yes` — takes the
decline branch (skipping the push, skipping the remote setup, or exiting with
code 0 at the non-empty-folder gate). -/
theorem only_y_confirms (env : RemoteEnv) (ans : String)
    (h : lowerStr ans ≠ "y") :
    (env.originExists = true → env.pushToExistingAnswer = ans →
      (setup_remote_and_push env).outcome = PushOutcome.skippedExistingDecline) ∧
    (env.originExists = false → env.addRemoteAnswer = ans →
      (setup_remote_and_push env).outcome = PushOutcome.skippedNoRemoteDecline) ∧
    empty_check_exit true ans = some 0 ∧
    lowerStr "yes" ≠ "y" := by
  refine ⟨?_, ?_, ?_, by decide⟩
  · intro h1 h2
    simp [setup_remote_and_push, h1, h2, h]
  · intro h1 h2
    simp [setup_remote_and_push, h1, h2, h]
  · simp [empty_check_exit, h]

/-- Witness for C10: the answer `yes` declines the push confirmation and the
non-empty-folder gate exits with code 0 on it. -/
theorem only_y_confirms_witness :
    (setup_remote_and_push
        { originExists := true, pushToExistingAnswer := "yes", addRemoteAnswer := "",
          urlInput := "", addRemoteSucceeds := true,
          pushSucceeds := fun _ => true }).outcome = PushOutcome.skippedExistingDecline ∧
    empty_check_exit true "yes" = some 0 := by
  have h := only_y_confirms
    { originExists := true, pushToExistingAnswer := "yes", addRemoteAnswer := "",
      urlInput := "", addRemoteSucceeds := true, pushSucceeds := fun _ => true }
    "yes" (by decide)
  exact ⟨h.1 rfl rfl, h.2.2.1⟩
